import Mathlib

/-!
Verification of the i9vale real-estate feed synchronization service.

The development shallowly embeds the three services of the repository:
`ImoveisService` (source adapter: feed normalization), `DatabaseService`
(record store adapter: field mapping and coercions), `SqlGeneratorService`
(statement formatter), and `SyncService.syncDatabase` (reconciliation engine).
JavaScript built-ins used by the code (`parseFloat`, `parseInt`,
`String.prototype.toLowerCase`, `String.prototype.split`, `new Date`,
truthiness, `||` defaulting) are modelled by explicit Lean functions below.
-/

/-- The single-quote character, used to build and inspect SQL literals. -/
def sqChar : Char := Char.ofNat 39

/-- One-character string holding a single quote. -/
def sqs : String := String.mk [sqChar]

/-- Wrap a string in single quotes, as the statement formatter does. -/
def sqQuote (s : String) : String := sqs ++ s ++ sqs

/-- JavaScript truthiness of a string: every string except `""` is truthy. -/
def jsTruthy (s : String) : Bool := !(s == "")

/-- JavaScript `a || d` where `a` is a possibly-absent string field:
`undefined` and `""` both fall back to the default. -/
def jsOr (o : Option String) (d : String) : String :=
  match o with
  | some s => if s = "" then d else s
  | none => d

/-- JavaScript `s || d` on a string that is definitely present. -/
def jsOrStr (s d : String) : String := if s = "" then d else s

/-- JavaScript `toLowerCase` restricted to the Latin-1 range used by the
feed (A-Z and the accented uppercase block U+00C0..U+00DE except U+00D7). -/
def charLowerJS (c : Char) : Char :=
  let n := c.toNat
  if 65 ≤ n ∧ n ≤ 90 then Char.ofNat (n + 32)
  else if 192 ≤ n ∧ n ≤ 222 ∧ n ≠ 215 then Char.ofNat (n + 32)
  else c

/-- JavaScript `String.prototype.toLowerCase` (Latin-1 fragment). -/
def jsToLower (s : String) : String := String.mk (s.data.map charLowerJS)

/-- Decimal digit test. -/
def jsDigit (c : Char) : Bool := (48 ≤ c.toNat) && (c.toNat ≤ 57)

/-- Split a character list at every occurrence of the separator. -/
def splitCharAux (sep : Char) : List Char → List (List Char)
  | [] => [[]]
  | c :: cs =>
    let r := splitCharAux sep cs
    if c = sep then [] :: r
    else
      match r with
      | [] => [[c]]
      | h :: t => (c :: h) :: t

/-- Model of JavaScript `String.prototype.split` with a one-character
separator (the source splits on "/" and "-"): the empty string yields
one empty part, and n separators yield n+1 parts. -/
def jsSplit (s : String) (sep : Char) : List String :=
  (splitCharAux sep s.data).map (fun l => String.mk l)

/-- Numeric value of a list of decimal digit characters. -/
def digitsVal (l : List Char) : Nat :=
  l.foldl (fun a c => a * 10 + (c.toNat - 48)) 0

/-- Model of JavaScript `parseInt(s)` (radix 10): optional sign followed by
a longest digit prefix; `NaN` (here `none`) when no digit is found. -/
def jsParseInt (s : String) : Option Int :=
  let cs := s.data
  let signed : Int × List Char :=
    match cs with
    | c :: rest =>
      if c = Char.ofNat 45 then (-1, rest)
      else if c = Char.ofNat 43 then (1, rest) else (1, cs)
    | [] => (1, cs)
  let ds := signed.2.takeWhile jsDigit
  if ds.isEmpty then none else some (signed.1 * (digitsVal ds : Int))

/-- Model of JavaScript `parseFloat(s)`: optional sign, digit prefix,
optional fractional part; `NaN` (here `none`) when no digit is found.
The value is kept as an exact rational. -/
def jsParseFloat (s : String) : Option Rat :=
  let cs := s.data
  let signed : Rat × List Char :=
    match cs with
    | c :: rest =>
      if c = Char.ofNat 45 then (-1, rest)
      else if c = Char.ofNat 43 then (1, rest) else (1, cs)
    | [] => (1, cs)
  let intDigits := signed.2.takeWhile jsDigit
  let rest := signed.2.dropWhile jsDigit
  let fracDigs : List Char :=
    match rest with
    | c :: r2 => if c = Char.ofNat 46 then r2.takeWhile jsDigit else []
    | [] => []
  if intDigits.isEmpty && fracDigs.isEmpty then none
  else
    some (signed.1 * ((digitsVal intDigits : Rat) +
      (digitsVal fracDigs : Rat) / ((10 : Rat) ^ fracDigs.length)))

/-- Fractional decimal digits of `r / d`, with fuel bounding the length
(JavaScript number printing is finite). -/
def fracDigitChars : Nat → Nat → Nat → List Char
  | 0, _, _ => []
  | fuel + 1, r, d =>
    if r = 0 then []
    else Char.ofNat (48 + (r * 10) / d) :: fracDigitChars fuel ((r * 10) % d) d

/-- Model of JavaScript `Number.prototype.toString` on the rationals the
feed produces: integers print without a point, terminating decimals print
their digits. -/
def ratToString (q : Rat) : String :=
  if q.den = 1 then toString q.num
  else
    let sgn := if q.num < 0 then "-" else ""
    let n := q.num.natAbs
    sgn ++ toString (n / q.den) ++ "." ++
      String.mk (fracDigitChars 20 (n % q.den) q.den)

/-- A JavaScript `Date` value: either a valid (year, monthIndex, day)
triple as produced by `new Date(y, m, d)`, or the Invalid Date value. -/
inductive JsDate where
  | ymd : Int → Int → Int → JsDate
  | invalid : JsDate
deriving DecidableEq

/-- `new Date(y, m, d)` on possibly-NaN numeric arguments: any NaN
argument yields Invalid Date. -/
def jsMakeDate (y m d : Option Int) : JsDate :=
  match y, m, d with
  | some y, some m, some d => .ymd y m d
  | _, _, _ => .invalid

/-- `new Date(string)` on a generic string: the model accepts exactly
ISO `YYYY-MM-DD` shaped strings (three all-digit dash-separated parts)
and yields Invalid Date otherwise. -/
def jsNewDateFromString (s : String) : JsDate :=
  match jsSplit s (Char.ofNat 45) with
  | [ys, ms, ds] =>
    match jsParseInt ys, jsParseInt ms, jsParseInt ds with
    | some y, some m, some d =>
      if ys.data.all jsDigit && ms.data.all jsDigit && ds.data.all jsDigit && !(ys == "") &&
          !(ms == "") && !(ds == "") then
        .ymd y (m - 1) d
      else .invalid
    | _, _, _ => .invalid
  | _ => .invalid

/-- Realtor sub-record (`Corretor` in `types/imovel.ts`). -/
structure Corretor where
  nome : String
  telefone : String
  celular : String
  email : String
  foto : String
deriving DecidableEq

/-- Photo record (`Foto` in `types/imovel.ts`). -/
structure Foto where
  NomeArquivo : String
  FotoTipo : String
  URLArquivo : String
  Principal : String
deriving DecidableEq

/-- The normalized listing record (`Imovel` in `types/imovel.ts`).
Fields marked optional in the TypeScript interface are `Option String`;
`Fotos` holds the photo list. -/
structure Imovel where
  Filial : String
  CodigoCliente : String
  CodigoImovel : String
  CodigoImovelAuxiliar : String
  DataCadastro : String
  DataAtualizacao : String
  DataAtualizacaoImovel : String
  URLGaiaSite : String
  TituloImovel : String
  Publicar : String
  TipoImovel : String
  SubTipoImovel : String
  Finalidade : String
  CategoriaImovel : String
  Pais : String
  Estado : String
  Cidade : String
  Bairro : String
  BairroOficial : String
  Regiao : String
  Endereco : String
  Numero : String
  CEP : String
  ComplementoEndereco : String
  PontoReferenciaEndereco : String
  latitude : String
  longitude : String
  NomeCondominio : String
  NomeEdificio : String
  StatusComercial : String
  CondominioFechado : String
  TipoOferta : String
  corretor : Corretor
  PublicaValores : String
  PrecoVenda : String
  PrecoAluguel : Option String
  PrecoMedioM2Venda : String
  PrecoCondominio : String
  AreaUtil : String
  AreaTotal : String
  UnidadeMetrica : String
  PrecisaReforma : String
  PadraoImovel : String
  PadraoLocalizacao : String
  Ocupacao : String
  AceitaNegociacao : String
  AceitaFinanciamento : String
  FaceImovel : String
  NumeroAndar : String
  PortaoEletronico : String
  Terraco : String
  ServicoCozinha : String
  Zelador : String
  ArmarioBanheiro : String
  ArmarioAreaServico : String
  PisoLaminado : String
  QtdDormitorios : String
  QtdSuites : Option String
  QtdBanheiros : String
  QtdSalas : String
  QtdVagasDescobertas : String
  QtdVagas : String
  QtdVagasCobertas : Option String
  QtdAndar : String
  AnoConstrucao : String
  Observacao : String
  ArmarioCozinha : String
  Piscina : String
  QuadraPoliEsportiva : String
  Sauna : String
  Varanda : String
  Vestiario : String
  AreaServico : String
  Interfone : String
  Exclusividade : String
  Mobiliado : Option String
  ArCondicionado : Option String
  Elevador : Option String
  Fotos : List Foto
deriving DecidableEq

/-- A database value as produced by the record store adapter's field
mapping: the possible runtime types of the entries of the parameter array
built by `mapImovelToDatabaseValues`. -/
inductive DbValue where
  | str : String → DbValue
  | num : Rat → DbValue
  | int : Int → DbValue
  | bool : Bool → DbValue
  | date : JsDate → DbValue
  | null : DbValue
deriving DecidableEq

/-- `number | null` into a database value. -/
def DbValue.ofNum : Option Rat → DbValue
  | none => .null
  | some q => .num q

/-- `integer | null` into a database value. -/
def DbValue.ofInt : Option Int → DbValue
  | none => .null
  | some n => .int n

/-- JavaScript `s || null` on a present string field. -/
def DbValue.ofStrOrNull (s : String) : DbValue := if s = "" then .null else .str s

/-- `string | null` into a database value. -/
def DbValue.ofOptStr : Option String → DbValue
  | none => .null
  | some s => .str s

/-- `Date | null` into a database value. -/
def DbValue.ofDate : Option JsDate → DbValue
  | none => .null
  | some d => .date d

namespace DatabaseService

/-- `DatabaseService.parseNumeric`: `""`, `"0"` and `"0.00"` map to null,
otherwise `parseFloat` with NaN mapped to null. -/
def parseNumeric (value : String) : Option Rat :=
  if value = "" ∨ value = "0" ∨ value = "0.00" then none else jsParseFloat value

/-- `DatabaseService.parseInteger`: `""` and `"0"` map to null, otherwise
`parseInt` with NaN mapped to null. -/
def parseInteger (value : String) : Option Int :=
  if value = "" ∨ value = "0" then none else jsParseInt value

/-- `DatabaseService.parseBoolean`: exactly `"1"` and `"true"` are true. -/
def parseBoolean (value : String) : Bool := value == "1" || value == "true"

/-- `DatabaseService.mapTipoOferta`: codes 1-3 map to display strings,
anything else falls back to `Venda`. -/
def mapTipoOferta (tipoOferta : String) : String :=
  if tipoOferta = "1" then "Venda"
  else if tipoOferta = "2" then "Aluguel"
  else if tipoOferta = "3" then "Venda/Aluguel"
  else "Venda"

/-- `DatabaseService.mapFinalidade`: case-insensitive canonicalization of
four known categories; otherwise `finalidade || 'Residencial'`. -/
def mapFinalidade (finalidade : String) : String :=
  let lower := jsToLower finalidade
  if lower = "residencial" then "Residencial"
  else if lower = "comercial" then "Comercial"
  else if lower = "industrial" then "Industrial"
  else if lower = "rural" then "Rural"
  else jsOrStr finalidade "Residencial"

/-- `DatabaseService.mapPadraoImovel`: empty or the sentinel maps to null;
case-insensitive canonicalization of the three known standards; any other
value passes through. -/
def mapPadraoImovel (padraoImovel : String) : Option String :=
  if padraoImovel = "" ∨ padraoImovel = "Não informado" then none
  else
    let lower := jsToLower padraoImovel
    if lower = "alto padrão" ∨ lower = "alto padrao" then some "Alto Padrão"
    else if lower = "médio padrão" ∨ lower = "medio padrao" then some "Médio Padrão"
    else if lower = "padrão" ∨ lower = "padrao" then some "Padrão"
    else some padraoImovel

/-- `DatabaseService.mapPadraoLocalizacao`: same table as
`mapPadraoImovel` (the source duplicates the body verbatim). -/
def mapPadraoLocalizacao (padraoLocalizacao : String) : Option String :=
  if padraoLocalizacao = "" ∨ padraoLocalizacao = "Não informado" then none
  else
    let lower := jsToLower padraoLocalizacao
    if lower = "alto padrão" ∨ lower = "alto padrao" then some "Alto Padrão"
    else if lower = "médio padrão" ∨ lower = "medio padrao" then some "Médio Padrão"
    else if lower = "padrão" ∨ lower = "padrao" then some "Padrão"
    else some padraoLocalizacao

/-- `DatabaseService.buildCompleteAddress`: concatenates the non-empty
address segments, postal code labelled, joined with `", "`. -/
def buildCompleteAddress (imovel : Imovel) : String :=
  let addressParts : List String :=
    (if jsTruthy imovel.Endereco then [imovel.Endereco] else []) ++
    (if jsTruthy imovel.Numero then [imovel.Numero] else []) ++
    (if jsTruthy imovel.ComplementoEndereco then [imovel.ComplementoEndereco] else []) ++
    (if jsTruthy imovel.Bairro then [imovel.Bairro] else []) ++
    (if jsTruthy imovel.Cidade then [imovel.Cidade] else []) ++
    (if jsTruthy imovel.Estado then [imovel.Estado] else []) ++
    (if jsTruthy imovel.CEP then ["CEP: " ++ imovel.CEP] else [])
  String.intercalate ", " addressParts

/-- `DatabaseService.parseTimestamp`: empty maps to null; a three-part
slash-separated value builds `new Date(year, month - 1, day)` from
`parseInt` of the parts; otherwise a generic `new Date(value)` with the
invalid-date check mapping to null. -/
def parseTimestamp (value : String) : Option JsDate :=
  if value = "" then none
  else
    let parts := jsSplit value (Char.ofNat 47)
    if parts.length = 3 then
      some (jsMakeDate (jsParseInt (parts.getD 2 ""))
        ((jsParseInt (parts.getD 1 "")).map (· - 1))
        (jsParseInt (parts.getD 0 "")))
    else
      match jsNewDateFromString value with
      | .invalid => none
      | d => some d

/-- `DatabaseService.mapImovelToDatabaseValues`: the 29-entry parameter
array for the insert/update statements, in column order. -/
def mapImovelToDatabaseValues (imovel : Imovel) : List DbValue :=
  let enderecoCompleto := buildCompleteAddress imovel
  let tipoOferta := mapTipoOferta imovel.TipoOferta
  let finalidade := mapFinalidade imovel.Finalidade
  let padraoImovel := mapPadraoImovel imovel.PadraoImovel
  let padraoLocalizacao := mapPadraoLocalizacao imovel.PadraoLocalizacao
  [ .str imovel.CodigoImovel,
    .str finalidade,
    .str imovel.TipoImovel,
    .str imovel.Cidade,
    .str tipoOferta,
    .ofNum (parseNumeric imovel.PrecoVenda),
    .ofNum (parseNumeric (jsOr imovel.PrecoAluguel "0")),
    .ofInt (parseInteger imovel.QtdDormitorios),
    .ofInt (parseInteger (jsOr imovel.QtdSuites "0")),
    .ofNum (parseNumeric imovel.AreaUtil),
    .ofStrOrNull imovel.Bairro,
    .ofInt (parseInteger (jsOr imovel.QtdVagasCobertas "0")),
    .ofInt (parseInteger imovel.QtdBanheiros),
    .ofOptStr padraoImovel,
    .ofOptStr padraoLocalizacao,
    .ofInt (parseInteger imovel.AnoConstrucao),
    .bool (parseBoolean (jsOr imovel.Mobiliado "0")),
    .bool (parseBoolean (jsOr imovel.ArCondicionado "0")),
    .bool (parseBoolean imovel.Piscina),
    .bool (parseBoolean (jsOr imovel.Elevador "0")),
    .ofStrOrNull imovel.Estado,
    .ofStrOrNull enderecoCompleto,
    .ofStrOrNull imovel.TituloImovel,
    .ofNum (parseNumeric imovel.PrecoCondominio),
    .ofStrOrNull imovel.Observacao,
    .bool (parseBoolean imovel.Publicar),
    .ofDate (parseTimestamp imovel.DataCadastro),
    .ofDate (parseTimestamp imovel.DataAtualizacao),
    .ofStrOrNull imovel.URLGaiaSite ]

end DatabaseService

namespace SqlGeneratorService

/-- `SqlGeneratorService.escapeSqlString`: doubles each single quote
(the empty string passes through). -/
def escapeSqlString (value : String) : String :=
  if value = "" then ""
  else String.mk (value.data.flatMap fun c => if c = sqChar then [sqChar, sqChar] else [c])

/-- `SqlGeneratorService.parseNumeric`: renders `NULL` for empty, `"0"`,
`"0.00"` or NaN, otherwise `num.toString()`. -/
def parseNumeric (value : String) : String :=
  if value = "" ∨ value = "0" ∨ value = "0.00" then "NULL"
  else
    match jsParseFloat value with
    | none => "NULL"
    | some q => ratToString q

/-- `SqlGeneratorService.parseInteger`: renders `NULL` for empty, `"0"`
or NaN, otherwise the integer. -/
def parseInteger (value : String) : String :=
  if value = "" ∨ value = "0" then "NULL"
  else
    match jsParseInt value with
    | none => "NULL"
    | some n => toString n

/-- `SqlGeneratorService.parseBoolean`. -/
def parseBoolean (value : String) : String :=
  if value = "1" ∨ value = "true" then "true" else "false"

/-- `SqlGeneratorService.parseTimestamp`: empty renders `NULL`; a
three-part slash-separated value renders the quoted `year-month-day`
rearrangement of the raw parts; anything else renders the raw value
between quotes. Note: no call to `escapeSqlString` on either path. -/
def parseTimestamp (value : String) : String :=
  if value = "" then "NULL"
  else
    let parts := jsSplit value (Char.ofNat 47)
    if parts.length = 3 then
      sqQuote (parts.getD 2 "" ++ "-" ++ parts.getD 1 "" ++ "-" ++ parts.getD 0 "")
    else sqQuote value

/-- `SqlGeneratorService.mapTipoOferta` (verbatim copy of the
`DatabaseService` body). -/
def mapTipoOferta (tipoOferta : String) : String :=
  if tipoOferta = "1" then "Venda"
  else if tipoOferta = "2" then "Aluguel"
  else if tipoOferta = "3" then "Venda/Aluguel"
  else "Venda"

/-- `SqlGeneratorService.mapFinalidade` (verbatim copy). -/
def mapFinalidade (finalidade : String) : String :=
  let lower := jsToLower finalidade
  if lower = "residencial" then "Residencial"
  else if lower = "comercial" then "Comercial"
  else if lower = "industrial" then "Industrial"
  else if lower = "rural" then "Rural"
  else jsOrStr finalidade "Residencial"

/-- `SqlGeneratorService.mapPadraoImovel` (verbatim copy). -/
def mapPadraoImovel (padraoImovel : String) : Option String :=
  if padraoImovel = "" ∨ padraoImovel = "Não informado" then none
  else
    let lower := jsToLower padraoImovel
    if lower = "alto padrão" ∨ lower = "alto padrao" then some "Alto Padrão"
    else if lower = "médio padrão" ∨ lower = "medio padrao" then some "Médio Padrão"
    else if lower = "padrão" ∨ lower = "padrao" then some "Padrão"
    else some padraoImovel

/-- `SqlGeneratorService.mapPadraoLocalizacao` (verbatim copy). -/
def mapPadraoLocalizacao (padraoLocalizacao : String) : Option String :=
  if padraoLocalizacao = "" ∨ padraoLocalizacao = "Não informado" then none
  else
    let lower := jsToLower padraoLocalizacao
    if lower = "alto padrão" ∨ lower = "alto padrao" then some "Alto Padrão"
    else if lower = "médio padrão" ∨ lower = "medio padrao" then some "Médio Padrão"
    else if lower = "padrão" ∨ lower = "padrao" then some "Padrão"
    else some padraoLocalizacao

/-- `SqlGeneratorService.buildCompleteAddress` (verbatim copy). -/
def buildCompleteAddress (imovel : Imovel) : String :=
  let addressParts : List String :=
    (if jsTruthy imovel.Endereco then [imovel.Endereco] else []) ++
    (if jsTruthy imovel.Numero then [imovel.Numero] else []) ++
    (if jsTruthy imovel.ComplementoEndereco then [imovel.ComplementoEndereco] else []) ++
    (if jsTruthy imovel.Bairro then [imovel.Bairro] else []) ++
    (if jsTruthy imovel.Cidade then [imovel.Cidade] else []) ++
    (if jsTruthy imovel.Estado then [imovel.Estado] else []) ++
    (if jsTruthy imovel.CEP then ["CEP: " ++ imovel.CEP] else [])
  String.intercalate ", " addressParts

/-- Quoted escaped string literal `'...'`. -/
def quoted (s : String) : String := sqQuote (escapeSqlString s)

/-- The template fragment `${x ? `'${escape(x)}'` : 'NULL'}`. -/
def strFragment (s : String) : String := if jsTruthy s then quoted s else "NULL"

/-- The template fragment for a `string | null` value. -/
def optStrFragment : Option String → String
  | none => "NULL"
  | some s => strFragment s

/-- The 29 value fragments of the `INSERT` statement, in column order,
exactly as interpolated by `generateInsertStatement`. -/
def valueFragments (imovel : Imovel) : List String :=
  let enderecoCompleto := buildCompleteAddress imovel
  let tipoOferta := mapTipoOferta imovel.TipoOferta
  let finalidade := mapFinalidade imovel.Finalidade
  let padraoImovel := mapPadraoImovel imovel.PadraoImovel
  let padraoLocalizacao := mapPadraoLocalizacao imovel.PadraoLocalizacao
  [ quoted imovel.CodigoImovel,
    strFragment finalidade,
    quoted imovel.TipoImovel,
    quoted imovel.Cidade,
    quoted tipoOferta,
    parseNumeric imovel.PrecoVenda,
    parseNumeric (jsOr imovel.PrecoAluguel "0"),
    parseInteger imovel.QtdDormitorios,
    parseInteger (jsOr imovel.QtdSuites "0"),
    parseNumeric imovel.AreaUtil,
    strFragment imovel.Bairro,
    parseInteger (jsOr imovel.QtdVagasCobertas "0"),
    parseInteger imovel.QtdBanheiros,
    optStrFragment padraoImovel,
    optStrFragment padraoLocalizacao,
    parseInteger imovel.AnoConstrucao,
    parseBoolean (jsOr imovel.Mobiliado "0"),
    parseBoolean (jsOr imovel.ArCondicionado "0"),
    parseBoolean imovel.Piscina,
    parseBoolean (jsOr imovel.Elevador "0"),
    strFragment imovel.Estado,
    strFragment enderecoCompleto,
    strFragment imovel.TituloImovel,
    parseNumeric imovel.PrecoCondominio,
    strFragment imovel.Observacao,
    parseBoolean imovel.Publicar,
    parseTimestamp imovel.DataCadastro,
    parseTimestamp imovel.DataAtualizacao,
    strFragment imovel.URLGaiaSite ]

/-- The fixed column-list header of the generated statement. -/
def insertHeader : String :=
  "INSERT INTO \"public\".\"imoveis_vale\" (\n  \"codigo_imovel\",\n  \"finalidade\",\n  \"tipo_imovel\",\n  \"cidade\",\n  \"tipo_oferta\",\n  \"preco_venda\",\n  \"preco_aluguel\",\n  \"qtd_dormitorios\",\n  \"qtd_suites\",\n  \"area_util\",\n  \"bairro\",\n  \"qtd_vagas_cobertas\",\n  \"qtd_banheiros\",\n  \"padrao_imovel\",\n  \"padrao_localizacao\",\n  \"ano_construcao\",\n  \"mobiliado\",\n  \"ar_condicionado\",\n  \"piscina\",\n  \"elevador\",\n  \"estado\",\n  \"endereco\",\n  \"titulo_imovel\",\n  \"preco_condominio\",\n  \"observacoes\",\n  \"ativo\",\n  \"data_cadastro\",\n  \"data_atualizacao\",\n  \"url_site\"\n) VALUES (\n  "

/-- `SqlGeneratorService.generateInsertStatement`: the full statement
text assembled from the header and the 29 value fragments. -/
def generateInsertStatement (imovel : Imovel) : String :=
  insertHeader ++ String.intercalate ",\n  " (valueFragments imovel) ++ "\n);"

end SqlGeneratorService

/-- The denotation of a database value as a SQL literal: this is the
spec-side bridge used to compare the statement formatter with the record
store mapping (a string denotes its quoted escaped literal, a number its
decimal numeral, a boolean `true`/`false`, null the `NULL` keyword, a
valid date its quoted ISO rendering). -/
def renderDbValue : DbValue → String
  | .str s => sqQuote (SqlGeneratorService.escapeSqlString s)
  | .num q => ratToString q
  | .int n => toString n
  | .bool b => if b then "true" else "false"
  | .date (.ymd y m d) =>
      sqQuote (toString y ++ "-" ++ toString (m + 1) ++ "-" ++ toString d)
  | .date .invalid => "InvalidDate"
  | .null => "NULL"

namespace ImoveisService

/-- A raw realtor object from the parsed XML (`any` in the source):
every field may be absent. -/
structure RawCorretor where
  nome : Option String := none
  telefone : Option String := none
  celular : Option String := none
  email : Option String := none
  foto : Option String := none
deriving DecidableEq

/-- A raw photo object from the parsed XML. -/
structure RawFoto where
  NomeArquivo : Option String := none
  FotoTipo : Option String := none
  URLArquivo : Option String := none
  Principal : Option String := none
deriving DecidableEq

/-- A value that the XML parser may deliver either as a single object or
as an array (`explicitArray: false`). -/
inductive OneOrMany (α : Type) where
  | one : α → OneOrMany α
  | many : List α → OneOrMany α
deriving DecidableEq

/-- The raw `Fotos` wrapper: its `Foto` member may be absent, one object
or an array. -/
structure RawFotos where
  Foto : Option (OneOrMany RawFoto) := none
deriving DecidableEq

/-- A raw listing entry from the parsed XML: every scalar field may be
absent (the source reads them as `any` and defaults each one). -/
structure RawImovel where
  Filial : Option String := none
  CodigoCliente : Option String := none
  CodigoImovel : Option String := none
  CodigoImovelAuxiliar : Option String := none
  DataCadastro : Option String := none
  DataAtualizacao : Option String := none
  DataAtualizacaoImovel : Option String := none
  URLGaiaSite : Option String := none
  TituloImovel : Option String := none
  Publicar : Option String := none
  TipoImovel : Option String := none
  SubTipoImovel : Option String := none
  Finalidade : Option String := none
  CategoriaImovel : Option String := none
  Pais : Option String := none
  Estado : Option String := none
  Cidade : Option String := none
  Bairro : Option String := none
  BairroOficial : Option String := none
  Regiao : Option String := none
  Endereco : Option String := none
  Numero : Option String := none
  CEP : Option String := none
  ComplementoEndereco : Option String := none
  PontoReferenciaEndereco : Option String := none
  latitude : Option String := none
  longitude : Option String := none
  NomeCondominio : Option String := none
  NomeEdificio : Option String := none
  StatusComercial : Option String := none
  CondominioFechado : Option String := none
  TipoOferta : Option String := none
  corretor : Option RawCorretor := none
  PublicaValores : Option String := none
  PrecoVenda : Option String := none
  PrecoAluguel : Option String := none
  PrecoMedioM2Venda : Option String := none
  PrecoCondominio : Option String := none
  AreaUtil : Option String := none
  AreaTotal : Option String := none
  UnidadeMetrica : Option String := none
  PrecisaReforma : Option String := none
  PadraoImovel : Option String := none
  PadraoLocalizacao : Option String := none
  Ocupacao : Option String := none
  AceitaNegociacao : Option String := none
  AceitaFinanciamento : Option String := none
  FaceImovel : Option String := none
  NumeroAndar : Option String := none
  PortaoEletronico : Option String := none
  Terraco : Option String := none
  ServicoCozinha : Option String := none
  Zelador : Option String := none
  ArmarioBanheiro : Option String := none
  ArmarioAreaServico : Option String := none
  PisoLaminado : Option String := none
  QtdDormitorios : Option String := none
  QtdSuites : Option String := none
  QtdBanheiros : Option String := none
  QtdSalas : Option String := none
  QtdVagasDescobertas : Option String := none
  QtdVagas : Option String := none
  QtdVagasCobertas : Option String := none
  QtdAndar : Option String := none
  AnoConstrucao : Option String := none
  Observacao : Option String := none
  ArmarioCozinha : Option String := none
  Piscina : Option String := none
  QuadraPoliEsportiva : Option String := none
  Sauna : Option String := none
  Varanda : Option String := none
  Vestiario : Option String := none
  AreaServico : Option String := none
  Interfone : Option String := none
  Exclusividade : Option String := none
  Mobiliado : Option String := none
  ArCondicionado : Option String := none
  Elevador : Option String := none
  Fotos : Option RawFotos := none
deriving DecidableEq

/-- The parsed feed payload `Carga.Imoveis.Imovel`, each level possibly
absent (`parsedData?.Carga?.Imoveis?.Imovel` in the source). -/
structure RawImoveis where
  Imovel : Option (OneOrMany RawImovel) := none
deriving DecidableEq

/-- `Carga` level of the payload. -/
structure RawCarga where
  Imoveis : Option RawImoveis := none
deriving DecidableEq

/-- Root of the parsed payload. -/
structure CargaImoveis where
  Carga : Option RawCarga := none
deriving DecidableEq

/-- JavaScript truthiness of a possibly-absent string. -/
def jsTruthyOpt : Option String → Bool
  | none => false
  | some s => jsTruthy s

/-- `ImoveisService.isValidImovel`: the entry must carry a truthy
`CodigoImovel` and a truthy `TituloImovel`. -/
def isValidImovel (imovel : RawImovel) : Bool :=
  jsTruthyOpt imovel.CodigoImovel && jsTruthyOpt imovel.TituloImovel

/-- `ImoveisService.normalizeCorretor`: an absent realtor becomes the
all-empty record; present fields default to the empty string. -/
def normalizeCorretor (corretor : Option RawCorretor) : Corretor :=
  match corretor with
  | none =>
    { nome := "", telefone := "", celular := "", email := "", foto := "" }
  | some c =>
    { nome := jsOr c.nome "", telefone := jsOr c.telefone "",
      celular := jsOr c.celular "", email := jsOr c.email "",
      foto := jsOr c.foto "" }

/-- `ImoveisService.normalizeFotos`: an absent wrapper or member yields
the empty photo list; a single photo is coerced to a one-element list;
photo fields are defaulted (`FotoTipo` to `"Foto"`, `Principal` to `"0"`). -/
def normalizeFotos (fotos : Option RawFotos) : List Foto :=
  match fotos with
  | none => []
  | some fs =>
    match fs.Foto with
    | none => []
    | some om =>
      let fotosArray := match om with | .one f => [f] | .many l => l
      fotosArray.map fun foto =>
        { NomeArquivo := jsOr foto.NomeArquivo "",
          FotoTipo := jsOr foto.FotoTipo "Foto",
          URLArquivo := jsOr foto.URLArquivo "",
          Principal := jsOr foto.Principal "0" }

/-- `ImoveisService.normalizeImovel`: field-by-field defaulting of a raw
entry into the normalized `Imovel` record. The six optional interface
fields (`PrecoAluguel`, `QtdSuites`, `QtdVagasCobertas`, `Mobiliado`,
`ArCondicionado`, `Elevador`) are not assigned by the source's object
literal and therefore stay absent. -/
def normalizeImovel (imovel : RawImovel) : Imovel :=
  { Filial := jsOr imovel.Filial "",
    CodigoCliente := jsOr imovel.CodigoCliente "",
    CodigoImovel := jsOr imovel.CodigoImovel "",
    CodigoImovelAuxiliar := jsOr imovel.CodigoImovelAuxiliar "",
    DataCadastro := jsOr imovel.DataCadastro "",
    DataAtualizacao := jsOr imovel.DataAtualizacao "",
    DataAtualizacaoImovel := jsOr imovel.DataAtualizacaoImovel "",
    URLGaiaSite := jsOr imovel.URLGaiaSite "",
    TituloImovel := jsOr imovel.TituloImovel "",
    Publicar := jsOr imovel.Publicar "0",
    TipoImovel := jsOr imovel.TipoImovel "",
    SubTipoImovel := jsOr imovel.SubTipoImovel "",
    Finalidade := jsOr imovel.Finalidade "",
    CategoriaImovel := jsOr imovel.CategoriaImovel "",
    Pais := jsOr imovel.Pais "",
    Estado := jsOr imovel.Estado "",
    Cidade := jsOr imovel.Cidade "",
    Bairro := jsOr imovel.Bairro "",
    BairroOficial := jsOr imovel.BairroOficial "",
    Regiao := jsOr imovel.Regiao "",
    Endereco := jsOr imovel.Endereco "",
    Numero := jsOr imovel.Numero "",
    CEP := jsOr imovel.CEP "",
    ComplementoEndereco := jsOr imovel.ComplementoEndereco "",
    PontoReferenciaEndereco := jsOr imovel.PontoReferenciaEndereco "",
    latitude := jsOr imovel.latitude "",
    longitude := jsOr imovel.longitude "",
    NomeCondominio := jsOr imovel.NomeCondominio "",
    NomeEdificio := jsOr imovel.NomeEdificio "",
    StatusComercial := jsOr imovel.StatusComercial "",
    CondominioFechado := jsOr imovel.CondominioFechado "0",
    TipoOferta := jsOr imovel.TipoOferta "1",
    corretor := normalizeCorretor imovel.corretor,
    PublicaValores := jsOr imovel.PublicaValores "0",
    PrecoVenda := jsOr imovel.PrecoVenda "0",
    PrecoAluguel := none,
    PrecoMedioM2Venda := jsOr imovel.PrecoMedioM2Venda "0",
    PrecoCondominio := jsOr imovel.PrecoCondominio "0",
    AreaUtil := jsOr imovel.AreaUtil "0",
    AreaTotal := jsOr imovel.AreaTotal "0",
    UnidadeMetrica := jsOr imovel.UnidadeMetrica "M2",
    PrecisaReforma := jsOr imovel.PrecisaReforma "0",
    PadraoImovel := jsOr imovel.PadraoImovel "",
    PadraoLocalizacao := jsOr imovel.PadraoLocalizacao "",
    Ocupacao := jsOr imovel.Ocupacao "",
    AceitaNegociacao := jsOr imovel.AceitaNegociacao "0",
    AceitaFinanciamento := jsOr imovel.AceitaFinanciamento "0",
    FaceImovel := jsOr imovel.FaceImovel "",
    NumeroAndar := jsOr imovel.NumeroAndar "0",
    PortaoEletronico := jsOr imovel.PortaoEletronico "0",
    Terraco := jsOr imovel.Terraco "0",
    ServicoCozinha := jsOr imovel.ServicoCozinha "0",
    Zelador := jsOr imovel.Zelador "0",
    ArmarioBanheiro := jsOr imovel.ArmarioBanheiro "0",
    ArmarioAreaServico := jsOr imovel.ArmarioAreaServico "0",
    PisoLaminado := jsOr imovel.PisoLaminado "0",
    QtdDormitorios := jsOr imovel.QtdDormitorios "0",
    QtdSuites := none,
    QtdBanheiros := jsOr imovel.QtdBanheiros "0",
    QtdSalas := jsOr imovel.QtdSalas "0",
    QtdVagasDescobertas := jsOr imovel.QtdVagasDescobertas "0",
    QtdVagas := jsOr imovel.QtdVagas "0",
    QtdVagasCobertas := none,
    QtdAndar := jsOr imovel.QtdAndar "0",
    AnoConstrucao := jsOr imovel.AnoConstrucao "0",
    Observacao := jsOr imovel.Observacao "",
    ArmarioCozinha := jsOr imovel.ArmarioCozinha "0",
    Piscina := jsOr imovel.Piscina "0",
    QuadraPoliEsportiva := jsOr imovel.QuadraPoliEsportiva "0",
    Sauna := jsOr imovel.Sauna "0",
    Varanda := jsOr imovel.Varanda "0",
    Vestiario := jsOr imovel.Vestiario "0",
    AreaServico := jsOr imovel.AreaServico "0",
    Interfone := jsOr imovel.Interfone "0",
    Exclusividade := jsOr imovel.Exclusividade "NÃ£o",
    Mobiliado := none,
    ArCondicionado := none,
    Elevador := none,
    Fotos := normalizeFotos imovel.Fotos }

/-- `ImoveisService.extractImoveis`: walks the optional chain down to the
listing collection, coerces a single object into a one-element array,
drops invalid entries and normalizes the rest. -/
def extractImoveis (parsedData : Option CargaImoveis) : List Imovel :=
  let imoveis :=
    ((parsedData.bind (·.Carga)).bind (·.Imoveis)).bind (·.Imovel)
  match imoveis with
  | none => []
  | some om =>
    let imoveisArray := match om with | .one x => [x] | .many l => l
    (imoveisArray.filter isValidImovel).map normalizeImovel

/-- Payload whose listing collection is exactly the given shape. -/
def payloadOf (om : OneOrMany RawImovel) : Option CargaImoveis :=
  some { Carga := some { Imoveis := some { Imovel := some om } } }

end ImoveisService

/-- The result record of one synchronization run
(`SyncResult` in `databaseService.ts`). -/
structure SyncResult where
  success : Bool
  added : Nat
  updated : Nat
  deleted : Nat
  errors : List String
  timestamp : String
deriving DecidableEq

/-- The service response wrapper (`ApiResponse` in `types/imovel.ts`). -/
structure ApiResponse where
  success : Bool
  data : Option (List Imovel) := none
  error : Option String := none
  count : Option Nat := none
  timestamp : String := ""

/-- A store operation attempted during a run: soft delete, update or
insert, identified by the listing code it targets. -/
inductive StoreOp where
  | del : String → StoreOp
  | upd : String → StoreOp
  | ins : String → StoreOp
deriving DecidableEq

namespace SyncService

/-- `toAdd` (step 4 of `syncDatabase`): snapshot listings whose code is
not in the baseline. -/
def toAdd (apiImoveis : List Imovel) (existingCodes : List String) : List Imovel :=
  apiImoveis.filter fun imovel => !(decide (imovel.CodigoImovel ∈ existingCodes))

/-- `toUpdate` (step 4): snapshot listings whose code is in the baseline. -/
def toUpdate (apiImoveis : List Imovel) (existingCodes : List String) : List Imovel :=
  apiImoveis.filter fun imovel => decide (imovel.CodigoImovel ∈ existingCodes)

/-- `toDelete` (step 4): baseline codes absent from the snapshot. -/
def toDelete (apiImoveis : List Imovel) (existingCodes : List String) : List String :=
  existingCodes.filter fun code =>
    !(decide (code ∈ apiImoveis.map (·.CodigoImovel)))

/-- One apply phase (steps 5-7): each item is attempted in order; a
success increments the counter, a failure appends an error message, and
processing always continues with the rest of the batch. -/
def applyPhase {α : Type} (ok : α → Bool) (errMsg : α → String) :
    List α → Nat × List String
  | [] => (0, [])
  | x :: xs =>
    let rest := applyPhase ok errMsg xs
    if ok x then (rest.1 + 1, rest.2) else (rest.1, errMsg x :: rest.2)

/-- The single error message produced when the fetch step fails
(the thrown fetch error caught and wrapped by the outer handler). -/
def fetchFailMsg (api : ApiResponse) : String :=
  "Synchronization failed: Error: Failed to fetch data from API: " ++
    (match api.error with | some e => e | none => "undefined")

/-- `SyncService.syncDatabase`, parameterized by the fetch response, the
baseline codes returned by `getExistingPropertyCodes`, per-record outcome
predicates for the three store operations (`true` = the call succeeds,
`false` = it throws), and the run timestamp. Returns the `SyncResult`
together with the trace of store operations attempted, in order. -/
def syncDatabase (api : ApiResponse) (existingCodes : List String)
    (delOk : String → Bool) (updOk insOk : Imovel → Bool) (now : String) :
    SyncResult × List StoreOp :=
  match api.success, api.data with
  | true, some apiImoveis =>
    let toDel := toDelete apiImoveis existingCodes
    let toUpd := toUpdate apiImoveis existingCodes
    let toAddL := toAdd apiImoveis existingCodes
    let del := applyPhase delOk
      (fun code => "Failed to delete property " ++ code) toDel
    let upd := applyPhase updOk
      (fun imovel => "Failed to update property " ++ imovel.CodigoImovel) toUpd
    let add := applyPhase insOk
      (fun imovel => "Failed to add property " ++ imovel.CodigoImovel) toAddL
    let errors := del.2 ++ upd.2 ++ add.2
    ({ success := errors.length == 0, added := add.1, updated := upd.1,
       deleted := del.1, errors := errors, timestamp := now },
     toDel.map .del ++ toUpd.map (fun imovel => .upd imovel.CodigoImovel) ++
       toAddL.map (fun imovel => .ins imovel.CodigoImovel))
  | _, _ =>
    ({ success := false, added := 0, updated := 0, deleted := 0,
       errors := [fetchFailMsg api], timestamp := now }, [])

end SyncService

/-- A concrete listing used to instantiate theorems on explicit inputs. -/
def sampleImovel : Imovel :=
  { Filial := "", CodigoCliente := "", CodigoImovel := "B",
    CodigoImovelAuxiliar := "", DataCadastro := "", DataAtualizacao := "",
    DataAtualizacaoImovel := "", URLGaiaSite := "", TituloImovel := "Casa",
    Publicar := "1", TipoImovel := "Casa", SubTipoImovel := "",
    Finalidade := "residencial", CategoriaImovel := "", Pais := "",
    Estado := "SP", Cidade := "X", Bairro := "Centro", BairroOficial := "",
    Regiao := "", Endereco := "Rua A", Numero := "10", CEP := "00000",
    ComplementoEndereco := "", PontoReferenciaEndereco := "", latitude := "",
    longitude := "", NomeCondominio := "", NomeEdificio := "",
    StatusComercial := "", CondominioFechado := "0", TipoOferta := "1",
    corretor := { nome := "", telefone := "", celular := "", email := "",
                  foto := "" },
    PublicaValores := "0", PrecoVenda := "0", PrecoAluguel := none,
    PrecoMedioM2Venda := "0", PrecoCondominio := "0", AreaUtil := "0",
    AreaTotal := "0", UnidadeMetrica := "M2", PrecisaReforma := "0",
    PadraoImovel := "", PadraoLocalizacao := "", Ocupacao := "",
    AceitaNegociacao := "0", AceitaFinanciamento := "0", FaceImovel := "",
    NumeroAndar := "0", PortaoEletronico := "0", Terraco := "0",
    ServicoCozinha := "0", Zelador := "0", ArmarioBanheiro := "0",
    ArmarioAreaServico := "0", PisoLaminado := "0", QtdDormitorios := "0",
    QtdSuites := none, QtdBanheiros := "0", QtdSalas := "0",
    QtdVagasDescobertas := "0", QtdVagas := "0", QtdVagasCobertas := none,
    QtdAndar := "0", AnoConstrucao := "0", Observacao := "",
    ArmarioCozinha := "0", Piscina := "0", QuadraPoliEsportiva := "0",
    Sauna := "0", Varanda := "0", Vestiario := "0", AreaServico := "0",
    Interfone := "0", Exclusividade := "NÃ£o", Mobiliado := none,
    ArCondicionado := none, Elevador := none, Fotos := [] }

/-- Snapshot of three listings with codes B, C, D. -/
def apiW : List Imovel :=
  [ sampleImovel,
    { sampleImovel with CodigoImovel := "C" },
    { sampleImovel with CodigoImovel := "D" } ]

/-- Baseline codes A, B, C. -/
def baseW : List String := ["A", "B", "C"]

/-- The fetch response used by the run witnesses: fetch succeeded with
snapshot codes B, C, D. -/
def apiRespW : ApiResponse :=
  { success := true, data := some apiW, timestamp := "t" }

/-- Per-record update outcome forcing the single failure on code C. -/
def updOkW (imovel : Imovel) : Bool := !(imovel.CodigoImovel == "C")

/-- A raw entry omitting every field. -/
def emptyRawImovel : ImoveisService.RawImovel := {}

/-- A raw entry carrying the required identity and title. -/
def sampleRawImovel : ImoveisService.RawImovel :=
  { CodigoImovel := some "IMV1", TituloImovel := some "Casa",
    Cidade := some "X" }

/-- A listing with zero-valued area, sale price and bedroom count. -/
def imovelC8 : Imovel :=
  { sampleImovel with
      AreaUtil := "0"
      PrecoVenda := "0.00"
      QtdDormitorios := "0" }

/-- A listing whose created-date is not a slash-date and not ISO. -/
def imC4 : Imovel := { sampleImovel with DataCadastro := "notadate" }

/-- The three-character string a, single quote, b. -/
def quoteProbe : String := String.mk [Char.ofNat 97, sqChar, Char.ofNat 98]

/-- A listing whose created-date contains a single quote. -/
def imC7 : Imovel := { sampleImovel with DataCadastro := quoteProbe }

/-- Scanner for the interior of a SQL string literal including its
closing quote: accepts exactly the character lists in which every
interior quote is doubled and a single closing quote ends the literal. -/
def innerOk : List Char → Bool
  | [] => false
  | [c] => c == sqChar
  | c :: c2 :: rest =>
    if c == sqChar then c2 == sqChar && innerOk rest
    else innerOk (c2 :: rest)

theorem map_filter_comp {α β : Type} (f : α → β) (p : β → Bool) (l : List α) :
    (l.filter (fun a => p (f a))).map f = (l.map f).filter p := by
  induction l with
  | nil => rfl
  | cons a l ih =>
    by_cases h : p (f a) <;> simp [List.filter_cons, h, ih]

theorem length_filter_not_add {α : Type} (p : α → Bool) (l : List α) :
    (l.filter fun a => !(p a)).length + (l.filter p).length = l.length := by
  induction l with
  | nil => rfl
  | cons a l ih =>
    by_cases h : p a <;> simp [List.filter_cons, h] <;> omega

theorem length_filter_mem_comm (S B : List String) (hS : S.Nodup)
    (hB : B.Nodup) :
    (S.filter fun c => decide (c ∈ B)).length
      = (B.filter fun c => decide (c ∈ S)).length := by
  have h1 : (S.filter fun c => decide (c ∈ B)).Nodup := hS.filter _
  have h2 : (B.filter fun c => decide (c ∈ S)).Nodup := hB.filter _
  rw [← List.toFinset_card_of_nodup h1, ← List.toFinset_card_of_nodup h2]
  congr 1
  ext c
  simp only [List.mem_toFinset, List.mem_filter, decide_eq_true_eq]
  tauto

/-- C1: toAdd, toUpdate and toDelete computed by `syncDatabase` are the
set difference S minus B, the intersection of S and B, and the difference
B minus S of the snapshot code set S and the baseline code set B; the
three parts are pairwise disjoint and their sizes partition S and B. -/
theorem claim_C1 (apiImoveis : List Imovel) (existingCodes : List String)
    (hS : (apiImoveis.map (·.CodigoImovel)).Nodup) (hB : existingCodes.Nodup) :
    ((SyncService.toAdd apiImoveis existingCodes).map (·.CodigoImovel)).toFinset
        = (apiImoveis.map (·.CodigoImovel)).toFinset \ existingCodes.toFinset ∧
    ((SyncService.toUpdate apiImoveis existingCodes).map (·.CodigoImovel)).toFinset
        = (apiImoveis.map (·.CodigoImovel)).toFinset ∩ existingCodes.toFinset ∧
    (SyncService.toDelete apiImoveis existingCodes).toFinset
        = existingCodes.toFinset \ (apiImoveis.map (·.CodigoImovel)).toFinset ∧
    Disjoint ((SyncService.toAdd apiImoveis existingCodes).map
        (·.CodigoImovel)).toFinset
      ((SyncService.toUpdate apiImoveis existingCodes).map
        (·.CodigoImovel)).toFinset ∧
    Disjoint ((SyncService.toAdd apiImoveis existingCodes).map
        (·.CodigoImovel)).toFinset
      (SyncService.toDelete apiImoveis existingCodes).toFinset ∧
    Disjoint ((SyncService.toUpdate apiImoveis existingCodes).map
        (·.CodigoImovel)).toFinset
      (SyncService.toDelete apiImoveis existingCodes).toFinset ∧
    (SyncService.toAdd apiImoveis existingCodes).length
        + (SyncService.toUpdate apiImoveis existingCodes).length
      = apiImoveis.length ∧
    (SyncService.toDelete apiImoveis existingCodes).length
        + (SyncService.toUpdate apiImoveis existingCodes).length
      = existingCodes.length := by
  have hAddMap : (SyncService.toAdd apiImoveis existingCodes).map (·.CodigoImovel)
      = (apiImoveis.map (·.CodigoImovel)).filter
          fun c => !(decide (c ∈ existingCodes)) :=
    map_filter_comp (fun x : Imovel => x.CodigoImovel)
      (fun c => !(decide (c ∈ existingCodes))) apiImoveis
  have hUpdMap : (SyncService.toUpdate apiImoveis existingCodes).map (·.CodigoImovel)
      = (apiImoveis.map (·.CodigoImovel)).filter
          fun c => decide (c ∈ existingCodes) :=
    map_filter_comp (fun x : Imovel => x.CodigoImovel)
      (fun c => decide (c ∈ existingCodes)) apiImoveis
  have hAddSet : ((SyncService.toAdd apiImoveis existingCodes).map
      (·.CodigoImovel)).toFinset
      = (apiImoveis.map (·.CodigoImovel)).toFinset \ existingCodes.toFinset := by
    rw [hAddMap]
    ext c
    simp [List.mem_filter]
  have hUpdSet : ((SyncService.toUpdate apiImoveis existingCodes).map
      (·.CodigoImovel)).toFinset
      = (apiImoveis.map (·.CodigoImovel)).toFinset ∩ existingCodes.toFinset := by
    rw [hUpdMap]
    ext c
    simp [List.mem_filter]
  have hDelSet : (SyncService.toDelete apiImoveis existingCodes).toFinset
      = existingCodes.toFinset \ (apiImoveis.map (·.CodigoImovel)).toFinset := by
    ext c
    simp [SyncService.toDelete, List.mem_filter]
  refine ⟨hAddSet, hUpdSet, hDelSet, ?_, ?_, ?_, ?_, ?_⟩
  · rw [hAddSet, hUpdSet, Finset.disjoint_left]
    intro c hc hc2
    simp only [Finset.mem_sdiff, Finset.mem_inter] at hc hc2
    exact hc.2 hc2.2
  · rw [hAddSet, hDelSet, Finset.disjoint_left]
    intro c hc hc2
    simp only [Finset.mem_sdiff] at hc hc2
    exact hc.2 hc2.1
  · rw [hUpdSet, hDelSet, Finset.disjoint_left]
    intro c hc hc2
    simp only [Finset.mem_inter, Finset.mem_sdiff] at hc hc2
    exact hc2.2 hc.1
  · have := length_filter_not_add
      (fun imovel : Imovel => decide (imovel.CodigoImovel ∈ existingCodes))
      apiImoveis
    simpa [SyncService.toAdd, SyncService.toUpdate] using this
  · have hUpdLen : (SyncService.toUpdate apiImoveis existingCodes).length
        = ((apiImoveis.map (·.CodigoImovel)).filter
            fun c => decide (c ∈ existingCodes)).length := by
      rw [← hUpdMap, List.length_map]
    have hComm := length_filter_mem_comm (apiImoveis.map (·.CodigoImovel))
      existingCodes hS hB
    have hSplit : (SyncService.toDelete apiImoveis existingCodes).length
        + ((existingCodes.filter
            fun c => decide (c ∈ apiImoveis.map (·.CodigoImovel)))).length
        = existingCodes.length := by
      have := length_filter_not_add
        (fun c : String => decide (c ∈ apiImoveis.map (·.CodigoImovel)))
        existingCodes
      simpa [SyncService.toDelete] using this
    rw [hUpdLen, hComm]
    omega

/-- Witness for C1: the end-to-end example with snapshot codes B, C, D
and baseline codes A, B, C. -/
theorem claim_C1_witness :
    ((apiW.map (·.CodigoImovel)).Nodup ∧ baseW.Nodup) ∧
    (((SyncService.toAdd apiW baseW).map (·.CodigoImovel)).toFinset
        = (apiW.map (·.CodigoImovel)).toFinset \ baseW.toFinset ∧
    ((SyncService.toUpdate apiW baseW).map (·.CodigoImovel)).toFinset
        = (apiW.map (·.CodigoImovel)).toFinset ∩ baseW.toFinset ∧
    (SyncService.toDelete apiW baseW).toFinset
        = baseW.toFinset \ (apiW.map (·.CodigoImovel)).toFinset ∧
    Disjoint ((SyncService.toAdd apiW baseW).map (·.CodigoImovel)).toFinset
      ((SyncService.toUpdate apiW baseW).map (·.CodigoImovel)).toFinset ∧
    Disjoint ((SyncService.toAdd apiW baseW).map (·.CodigoImovel)).toFinset
      (SyncService.toDelete apiW baseW).toFinset ∧
    Disjoint ((SyncService.toUpdate apiW baseW).map (·.CodigoImovel)).toFinset
      (SyncService.toDelete apiW baseW).toFinset ∧
    (SyncService.toAdd apiW baseW).length
        + (SyncService.toUpdate apiW baseW).length = apiW.length ∧
    (SyncService.toDelete apiW baseW).length
        + (SyncService.toUpdate apiW baseW).length = baseW.length) :=
  ⟨⟨by decide, by decide⟩, claim_C1 apiW baseW (by decide) (by decide)⟩

theorem applyPhase_count {α : Type} (ok : α → Bool) (msg : α → String)
    (l : List α) : (SyncService.applyPhase ok msg l).1 = l.countP ok := by
  induction l with
  | nil => rfl
  | cons x xs ih =>
    by_cases h : ok x <;>
      simp [SyncService.applyPhase, h, ih, List.countP_cons]

theorem applyPhase_errs {α : Type} (ok : α → Bool) (msg : α → String)
    (l : List α) :
    (SyncService.applyPhase ok msg l).2
      = (l.filter fun a => !(ok a)).map msg := by
  induction l with
  | nil => rfl
  | cons x xs ih =>
    by_cases h : ok x <;> simp [SyncService.applyPhase, h, ih, List.filter_cons]

theorem applyPhase_errlen {α : Type} (ok : α → Bool) (msg : α → String)
    (l : List α) :
    (SyncService.applyPhase ok msg l).2.length
      = l.countP fun a => !(ok a) := by
  rw [applyPhase_errs, List.length_map, ← List.countP_eq_length_filter]

/-- Characterization of a successful-fetch run of `syncDatabase`: each
counter counts the non-failing operations of its phase, the error list
holds one message per failing operation in phase order, and success is
the emptiness test of the error list. -/
theorem syncDatabase_run (api : ApiResponse) (existingCodes : List String)
    (delOk : String → Bool) (updOk insOk : Imovel → Bool) (now : String)
    (apiImoveis : List Imovel)
    (h1 : api.success = true) (h2 : api.data = some apiImoveis) :
    (SyncService.syncDatabase api existingCodes delOk updOk insOk now).1.deleted
        = (SyncService.toDelete apiImoveis existingCodes).countP delOk ∧
    (SyncService.syncDatabase api existingCodes delOk updOk insOk now).1.updated
        = (SyncService.toUpdate apiImoveis existingCodes).countP updOk ∧
    (SyncService.syncDatabase api existingCodes delOk updOk insOk now).1.added
        = (SyncService.toAdd apiImoveis existingCodes).countP insOk ∧
    (SyncService.syncDatabase api existingCodes delOk updOk insOk now).1.errors.length
        = (SyncService.toDelete apiImoveis existingCodes).countP
            (fun c => !(delOk c))
          + (SyncService.toUpdate apiImoveis existingCodes).countP
              (fun i => !(updOk i))
          + (SyncService.toAdd apiImoveis existingCodes).countP
              (fun i => !(insOk i)) ∧
    (SyncService.syncDatabase api existingCodes delOk updOk insOk now).1.success
        = ((SyncService.syncDatabase api existingCodes delOk updOk insOk
            now).1.errors.length == 0) := by
  obtain ⟨success, data, error, count, ts⟩ := api
  simp only at h1 h2
  subst h1
  subst h2
  simp only [SyncService.syncDatabase]
  refine ⟨applyPhase_count _ _ _, applyPhase_count _ _ _,
    applyPhase_count _ _ _, ?_, trivial⟩
  simp only [List.length_append, applyPhase_errlen]

/-- C2: in a successful-fetch run where exactly one per-record store
operation throws, the result has exactly one error message, success is
false, and each phase counter equals the number of non-failing
operations of that phase: the single failure never aborts the batch. -/
theorem claim_C2 (api : ApiResponse) (existingCodes : List String)
    (delOk : String → Bool) (updOk insOk : Imovel → Bool) (now : String)
    (apiImoveis : List Imovel)
    (h1 : api.success = true) (h2 : api.data = some apiImoveis)
    (hone : (SyncService.toDelete apiImoveis existingCodes).countP
          (fun c => !(delOk c))
        + (SyncService.toUpdate apiImoveis existingCodes).countP
            (fun i => !(updOk i))
        + (SyncService.toAdd apiImoveis existingCodes).countP
            (fun i => !(insOk i)) = 1) :
    (SyncService.syncDatabase api existingCodes delOk updOk insOk
        now).1.errors.length = 1 ∧
    (SyncService.syncDatabase api existingCodes delOk updOk insOk
        now).1.success = false ∧
    (SyncService.syncDatabase api existingCodes delOk updOk insOk
        now).1.deleted
      = (SyncService.toDelete apiImoveis existingCodes).countP delOk ∧
    (SyncService.syncDatabase api existingCodes delOk updOk insOk
        now).1.updated
      = (SyncService.toUpdate apiImoveis existingCodes).countP updOk ∧
    (SyncService.syncDatabase api existingCodes delOk updOk insOk
        now).1.added
      = (SyncService.toAdd apiImoveis existingCodes).countP insOk := by
  obtain ⟨hdel, hupd, hadd, herr, hsucc⟩ :=
    syncDatabase_run api existingCodes delOk updOk insOk now apiImoveis h1 h2
  have hlen : (SyncService.syncDatabase api existingCodes delOk updOk insOk
      now).1.errors.length = 1 := by rw [herr, hone]
  refine ⟨hlen, ?_, hdel, hupd, hadd⟩
  rw [hsucc, hlen]
  rfl

/-- Witness for C2: baseline A, B, C; snapshot B, C, D; the update of C
is forced to fail, giving one error, added 1, updated 1, deleted 1. -/
theorem claim_C2_witness :
    (SyncService.syncDatabase apiRespW baseW (fun _ => true) updOkW
        (fun _ => true) "t").1.errors.length = 1 ∧
    (SyncService.syncDatabase apiRespW baseW (fun _ => true) updOkW
        (fun _ => true) "t").1.success = false ∧
    (SyncService.syncDatabase apiRespW baseW (fun _ => true) updOkW
        (fun _ => true) "t").1.deleted
      = (SyncService.toDelete apiW baseW).countP (fun _ => true) ∧
    (SyncService.syncDatabase apiRespW baseW (fun _ => true) updOkW
        (fun _ => true) "t").1.updated
      = (SyncService.toUpdate apiW baseW).countP updOkW ∧
    (SyncService.syncDatabase apiRespW baseW (fun _ => true) updOkW
        (fun _ => true) "t").1.added
      = (SyncService.toAdd apiW baseW).countP (fun _ => true) :=
  claim_C2 apiRespW baseW (fun _ => true) updOkW (fun _ => true) "t" apiW
    rfl rfl (by decide)

/-- C3: when the fetch step fails (unsuccessful response or missing
data), the run aborts with success false, all counters zero, exactly the
single fetch-failure message, and an empty store-operation trace: no
insert, update or soft delete is attempted. -/
theorem claim_C3 (api : ApiResponse) (existingCodes : List String)
    (delOk : String → Bool) (updOk insOk : Imovel → Bool) (now : String)
    (h : api.success = false ∨ api.data = none) :
    SyncService.syncDatabase api existingCodes delOk updOk insOk now
      = ({ success := false, added := 0, updated := 0, deleted := 0,
           errors := [SyncService.fetchFailMsg api], timestamp := now },
         []) := by
  obtain ⟨success, data, error, count, ts⟩ := api
  rcases h with h | h
  · simp only at h
    subst h
    rfl
  · simp only at h
    subst h
    cases success <;> rfl

/-- Witness for C3 at a concrete failed fetch response. -/
theorem claim_C3_witness :
    SyncService.syncDatabase
        { success := false, error := some "timeout", timestamp := "t" }
        baseW (fun _ => true) (fun _ => true) (fun _ => true) "t"
      = ({ success := false, added := 0, updated := 0, deleted := 0,
           errors := [SyncService.fetchFailMsg
             { success := false, error := some "timeout", timestamp := "t" }],
           timestamp := "t" }, []) :=
  claim_C3 { success := false, error := some "timeout", timestamp := "t" }
    baseW (fun _ => true) (fun _ => true) (fun _ => true) "t" (Or.inl rfl)

/-- C10: in every successful-fetch run, the three counters plus the
number of error messages add up to the total number of diff entries:
each attempted operation increments exactly one counter or contributes
exactly one error message. -/
theorem claim_C10 (api : ApiResponse) (existingCodes : List String)
    (delOk : String → Bool) (updOk insOk : Imovel → Bool) (now : String)
    (apiImoveis : List Imovel)
    (h1 : api.success = true) (h2 : api.data = some apiImoveis) :
    (SyncService.syncDatabase api existingCodes delOk updOk insOk
        now).1.added
      + (SyncService.syncDatabase api existingCodes delOk updOk insOk
          now).1.updated
      + (SyncService.syncDatabase api existingCodes delOk updOk insOk
          now).1.deleted
      + (SyncService.syncDatabase api existingCodes delOk updOk insOk
          now).1.errors.length
      = (SyncService.toDelete apiImoveis existingCodes).length
        + (SyncService.toUpdate apiImoveis existingCodes).length
        + (SyncService.toAdd apiImoveis existingCodes).length := by
  obtain ⟨hdel, hupd, hadd, herr, hsucc⟩ :=
    syncDatabase_run api existingCodes delOk updOk insOk now apiImoveis h1 h2
  have key : ∀ (β : Type) (p : β → Bool) (l : List β),
      l.countP p + l.countP (fun a => !(p a)) = l.length := by
    intro β p l
    rw [List.countP_eq_length_filter, List.countP_eq_length_filter]
    have := length_filter_not_add p l
    omega
  have k1 := key String delOk (SyncService.toDelete apiImoveis existingCodes)
  have k2 := key Imovel updOk (SyncService.toUpdate apiImoveis existingCodes)
  have k3 := key Imovel insOk (SyncService.toAdd apiImoveis existingCodes)
  rw [hdel, hupd, hadd, herr]
  omega

/-- Witness for C10 with the B, C, D snapshot against the A, B, C
baseline and the update of C failing. -/
theorem claim_C10_witness :
    (SyncService.syncDatabase apiRespW baseW (fun _ => true) updOkW
        (fun _ => true) "t").1.added
      + (SyncService.syncDatabase apiRespW baseW (fun _ => true) updOkW
          (fun _ => true) "t").1.updated
      + (SyncService.syncDatabase apiRespW baseW (fun _ => true) updOkW
          (fun _ => true) "t").1.deleted
      + (SyncService.syncDatabase apiRespW baseW (fun _ => true) updOkW
          (fun _ => true) "t").1.errors.length
      = (SyncService.toDelete apiW baseW).length
        + (SyncService.toUpdate apiW baseW).length
        + (SyncService.toAdd apiW baseW).length :=
  claim_C10 apiRespW baseW (fun _ => true) updOkW (fun _ => true) "t" apiW
    rfl rfl

/-- C5 (amended): every field the entry omits is defaulted to a fixed
per-field literal by the source adapter — the empty string for plain
string fields and "0" for count/flag fields, except that the unit of
measure defaults to "M2", the offer type to "1", the exclusivity flag to
"NÃ£o" (and, per photo, the photo type to "Foto"); an omitted realtor
becomes the all-empty sub-record and omitted photos the empty list; the
six optional interface fields are never populated and stay absent. -/
theorem claim_C5 (raw : ImoveisService.RawImovel) :
    (ImoveisService.normalizeImovel { raw with Filial := none }).Filial = "" ∧
    (ImoveisService.normalizeImovel { raw with CodigoCliente := none }).CodigoCliente = "" ∧
    (ImoveisService.normalizeImovel { raw with CodigoImovel := none }).CodigoImovel = "" ∧
    (ImoveisService.normalizeImovel { raw with CodigoImovelAuxiliar := none }).CodigoImovelAuxiliar = "" ∧
    (ImoveisService.normalizeImovel { raw with DataCadastro := none }).DataCadastro = "" ∧
    (ImoveisService.normalizeImovel { raw with DataAtualizacao := none }).DataAtualizacao = "" ∧
    (ImoveisService.normalizeImovel { raw with DataAtualizacaoImovel := none }).DataAtualizacaoImovel = "" ∧
    (ImoveisService.normalizeImovel { raw with URLGaiaSite := none }).URLGaiaSite = "" ∧
    (ImoveisService.normalizeImovel { raw with TituloImovel := none }).TituloImovel = "" ∧
    (ImoveisService.normalizeImovel { raw with TipoImovel := none }).TipoImovel = "" ∧
    (ImoveisService.normalizeImovel { raw with SubTipoImovel := none }).SubTipoImovel = "" ∧
    (ImoveisService.normalizeImovel { raw with Finalidade := none }).Finalidade = "" ∧
    (ImoveisService.normalizeImovel { raw with CategoriaImovel := none }).CategoriaImovel = "" ∧
    (ImoveisService.normalizeImovel { raw with Pais := none }).Pais = "" ∧
    (ImoveisService.normalizeImovel { raw with Estado := none }).Estado = "" ∧
    (ImoveisService.normalizeImovel { raw with Cidade := none }).Cidade = "" ∧
    (ImoveisService.normalizeImovel { raw with Bairro := none }).Bairro = "" ∧
    (ImoveisService.normalizeImovel { raw with BairroOficial := none }).BairroOficial = "" ∧
    (ImoveisService.normalizeImovel { raw with Regiao := none }).Regiao = "" ∧
    (ImoveisService.normalizeImovel { raw with Endereco := none }).Endereco = "" ∧
    (ImoveisService.normalizeImovel { raw with Numero := none }).Numero = "" ∧
    (ImoveisService.normalizeImovel { raw with CEP := none }).CEP = "" ∧
    (ImoveisService.normalizeImovel { raw with ComplementoEndereco := none }).ComplementoEndereco = "" ∧
    (ImoveisService.normalizeImovel { raw with PontoReferenciaEndereco := none }).PontoReferenciaEndereco = "" ∧
    (ImoveisService.normalizeImovel { raw with latitude := none }).latitude = "" ∧
    (ImoveisService.normalizeImovel { raw with longitude := none }).longitude = "" ∧
    (ImoveisService.normalizeImovel { raw with NomeCondominio := none }).NomeCondominio = "" ∧
    (ImoveisService.normalizeImovel { raw with NomeEdificio := none }).NomeEdificio = "" ∧
    (ImoveisService.normalizeImovel { raw with StatusComercial := none }).StatusComercial = "" ∧
    (ImoveisService.normalizeImovel { raw with PadraoImovel := none }).PadraoImovel = "" ∧
    (ImoveisService.normalizeImovel { raw with PadraoLocalizacao := none }).PadraoLocalizacao = "" ∧
    (ImoveisService.normalizeImovel { raw with Ocupacao := none }).Ocupacao = "" ∧
    (ImoveisService.normalizeImovel { raw with FaceImovel := none }).FaceImovel = "" ∧
    (ImoveisService.normalizeImovel { raw with Observacao := none }).Observacao = "" ∧
    (ImoveisService.normalizeImovel { raw with Publicar := none }).Publicar = "0" ∧
    (ImoveisService.normalizeImovel { raw with CondominioFechado := none }).CondominioFechado = "0" ∧
    (ImoveisService.normalizeImovel { raw with PublicaValores := none }).PublicaValores = "0" ∧
    (ImoveisService.normalizeImovel { raw with PrecoVenda := none }).PrecoVenda = "0" ∧
    (ImoveisService.normalizeImovel { raw with PrecoMedioM2Venda := none }).PrecoMedioM2Venda = "0" ∧
    (ImoveisService.normalizeImovel { raw with PrecoCondominio := none }).PrecoCondominio = "0" ∧
    (ImoveisService.normalizeImovel { raw with AreaUtil := none }).AreaUtil = "0" ∧
    (ImoveisService.normalizeImovel { raw with AreaTotal := none }).AreaTotal = "0" ∧
    (ImoveisService.normalizeImovel { raw with PrecisaReforma := none }).PrecisaReforma = "0" ∧
    (ImoveisService.normalizeImovel { raw with AceitaNegociacao := none }).AceitaNegociacao = "0" ∧
    (ImoveisService.normalizeImovel { raw with AceitaFinanciamento := none }).AceitaFinanciamento = "0" ∧
    (ImoveisService.normalizeImovel { raw with NumeroAndar := none }).NumeroAndar = "0" ∧
    (ImoveisService.normalizeImovel { raw with PortaoEletronico := none }).PortaoEletronico = "0" ∧
    (ImoveisService.normalizeImovel { raw with Terraco := none }).Terraco = "0" ∧
    (ImoveisService.normalizeImovel { raw with ServicoCozinha := none }).ServicoCozinha = "0" ∧
    (ImoveisService.normalizeImovel { raw with Zelador := none }).Zelador = "0" ∧
    (ImoveisService.normalizeImovel { raw with ArmarioBanheiro := none }).ArmarioBanheiro = "0" ∧
    (ImoveisService.normalizeImovel { raw with ArmarioAreaServico := none }).ArmarioAreaServico = "0" ∧
    (ImoveisService.normalizeImovel { raw with PisoLaminado := none }).PisoLaminado = "0" ∧
    (ImoveisService.normalizeImovel { raw with QtdDormitorios := none }).QtdDormitorios = "0" ∧
    (ImoveisService.normalizeImovel { raw with QtdBanheiros := none }).QtdBanheiros = "0" ∧
    (ImoveisService.normalizeImovel { raw with QtdSalas := none }).QtdSalas = "0" ∧
    (ImoveisService.normalizeImovel { raw with QtdVagasDescobertas := none }).QtdVagasDescobertas = "0" ∧
    (ImoveisService.normalizeImovel { raw with QtdVagas := none }).QtdVagas = "0" ∧
    (ImoveisService.normalizeImovel { raw with QtdAndar := none }).QtdAndar = "0" ∧
    (ImoveisService.normalizeImovel { raw with AnoConstrucao := none }).AnoConstrucao = "0" ∧
    (ImoveisService.normalizeImovel { raw with ArmarioCozinha := none }).ArmarioCozinha = "0" ∧
    (ImoveisService.normalizeImovel { raw with Piscina := none }).Piscina = "0" ∧
    (ImoveisService.normalizeImovel { raw with QuadraPoliEsportiva := none }).QuadraPoliEsportiva = "0" ∧
    (ImoveisService.normalizeImovel { raw with Sauna := none }).Sauna = "0" ∧
    (ImoveisService.normalizeImovel { raw with Varanda := none }).Varanda = "0" ∧
    (ImoveisService.normalizeImovel { raw with Vestiario := none }).Vestiario = "0" ∧
    (ImoveisService.normalizeImovel { raw with AreaServico := none }).AreaServico = "0" ∧
    (ImoveisService.normalizeImovel { raw with Interfone := none }).Interfone = "0" ∧
    (ImoveisService.normalizeImovel { raw with UnidadeMetrica := none }).UnidadeMetrica = "M2" ∧
    (ImoveisService.normalizeImovel { raw with TipoOferta := none }).TipoOferta = "1" ∧
    (ImoveisService.normalizeImovel { raw with Exclusividade := none }).Exclusividade = "NÃ£o" ∧
    (ImoveisService.normalizeImovel { raw with corretor := none }).corretor = { nome := "", telefone := "", celular := "", email := "", foto := "" } ∧
    (ImoveisService.normalizeImovel { raw with Fotos := none }).Fotos = [] ∧
    (ImoveisService.normalizeImovel raw).PrecoAluguel = none ∧
    (ImoveisService.normalizeImovel raw).QtdSuites = none ∧
    (ImoveisService.normalizeImovel raw).QtdVagasCobertas = none ∧
    (ImoveisService.normalizeImovel raw).Mobiliado = none ∧
    (ImoveisService.normalizeImovel raw).ArCondicionado = none ∧
    (ImoveisService.normalizeImovel raw).Elevador = none ∧
    (∀ foto : ImoveisService.RawFoto, (ImoveisService.normalizeFotos (some { Foto := some (.one { foto with FotoTipo := none }) })).map (fun f => f.FotoTipo) = ["Foto"]) ∧
    (∀ foto : ImoveisService.RawFoto, (ImoveisService.normalizeFotos (some { Foto := some (.one { foto with Principal := none }) })).map (fun f => f.Principal) = ["0"]) :=
  ⟨rfl, rfl, rfl, rfl, rfl, rfl, rfl, rfl, rfl, rfl, rfl, rfl, rfl, rfl, rfl, rfl, rfl, rfl, rfl, rfl, rfl, rfl, rfl, rfl, rfl, rfl, rfl, rfl, rfl, rfl, rfl, rfl, rfl, rfl, rfl, rfl, rfl, rfl, rfl, rfl, rfl, rfl, rfl, rfl, rfl, rfl, rfl, rfl, rfl, rfl, rfl, rfl, rfl, rfl, rfl, rfl, rfl, rfl, rfl, rfl, rfl, rfl, rfl, rfl, rfl, rfl, rfl, rfl, rfl, rfl, rfl, rfl, rfl, rfl, rfl, rfl, rfl, rfl, rfl, fun _ => rfl, fun _ => rfl⟩

/-- Counterexample for C5 as stated: the fully-omitted entry gets
UnidadeMetrica defaulted to "M2", which is neither the empty string nor
"0", and its normalized record still has an absent QtdSuites field. -/
theorem claim_C5_counterexample :
    (ImoveisService.normalizeImovel emptyRawImovel).UnidadeMetrica = "M2" ∧
    ¬((ImoveisService.normalizeImovel emptyRawImovel).UnidadeMetrica = ""
        ∨ (ImoveisService.normalizeImovel emptyRawImovel).UnidadeMetrica = "0") ∧
    (ImoveisService.normalizeImovel emptyRawImovel).QtdSuites = none :=
  ⟨rfl, by decide, rfl⟩

/-- C6 (amended): the offer-type table canonicalizes codes 1-3 and maps
every unrecognized value to the default "Venda" (not a passthrough); the
finalidade table canonicalizes its four categories case-insensitively,
passes nonempty unrecognized values through unchanged, and maps the
empty string to "Residencial"; the two padrão tables match their known
standards case-insensitively, map the empty string and the sentinel
"Não informado" to absent, pass other unrecognized values through
unchanged, and are identical to each other. -/
theorem claim_C6 :
    (DatabaseService.mapTipoOferta "1" = "Venda" ∧
     DatabaseService.mapTipoOferta "2" = "Aluguel" ∧
     DatabaseService.mapTipoOferta "3" = "Venda/Aluguel") ∧
    (∀ s, s ≠ "1" → s ≠ "2" → s ≠ "3" →
        DatabaseService.mapTipoOferta s = "Venda") ∧
    (∀ s, jsToLower s = "residencial" →
        DatabaseService.mapFinalidade s = "Residencial") ∧
    (∀ s, jsToLower s = "comercial" →
        DatabaseService.mapFinalidade s = "Comercial") ∧
    (∀ s, jsToLower s = "industrial" →
        DatabaseService.mapFinalidade s = "Industrial") ∧
    (∀ s, jsToLower s = "rural" → DatabaseService.mapFinalidade s = "Rural") ∧
    (∀ s, s ≠ "" → jsToLower s ≠ "residencial" → jsToLower s ≠ "comercial" →
        jsToLower s ≠ "industrial" → jsToLower s ≠ "rural" →
        DatabaseService.mapFinalidade s = s) ∧
    DatabaseService.mapFinalidade "" = "Residencial" ∧
    (DatabaseService.mapPadraoImovel "" = none ∧
     DatabaseService.mapPadraoImovel "Não informado" = none) ∧
    (∀ s, s ≠ "" → s ≠ "Não informado" →
        (jsToLower s = "alto padrão" ∨ jsToLower s = "alto padrao") →
        DatabaseService.mapPadraoImovel s = some "Alto Padrão") ∧
    (∀ s, s ≠ "" → s ≠ "Não informado" →
        (jsToLower s = "médio padrão" ∨ jsToLower s = "medio padrao") →
        DatabaseService.mapPadraoImovel s = some "Médio Padrão") ∧
    (∀ s, s ≠ "" → s ≠ "Não informado" →
        (jsToLower s = "padrão" ∨ jsToLower s = "padrao") →
        DatabaseService.mapPadraoImovel s = some "Padrão") ∧
    (∀ s, s ≠ "" → s ≠ "Não informado" →
        jsToLower s ≠ "alto padrão" → jsToLower s ≠ "alto padrao" →
        jsToLower s ≠ "médio padrão" → jsToLower s ≠ "medio padrao" →
        jsToLower s ≠ "padrão" → jsToLower s ≠ "padrao" →
        DatabaseService.mapPadraoImovel s = some s) ∧
    (∀ s, DatabaseService.mapPadraoLocalizacao s
        = DatabaseService.mapPadraoImovel s) := by
  refine ⟨⟨rfl, rfl, rfl⟩, ?_, ?_, ?_, ?_, ?_, ?_, rfl, ⟨rfl, rfl⟩,
    ?_, ?_, ?_, ?_, ?_⟩
  · intro s h1 h2 h3
    simp [DatabaseService.mapTipoOferta, h1, h2, h3]
  · intro s h
    simp [DatabaseService.mapFinalidade, h]
  · intro s h
    simp [DatabaseService.mapFinalidade, h]
  · intro s h
    simp [DatabaseService.mapFinalidade, h]
  · intro s h
    simp [DatabaseService.mapFinalidade, h]
  · intro s hne h1 h2 h3 h4
    simp [DatabaseService.mapFinalidade, jsOrStr, hne, h1, h2, h3, h4]
  · intro s h1 h2 hl
    rcases hl with hl | hl <;>
      simp [DatabaseService.mapPadraoImovel, h1, h2, hl]
  · intro s h1 h2 hl
    rcases hl with hl | hl <;>
      simp [DatabaseService.mapPadraoImovel, h1, h2, hl]
  · intro s h1 h2 hl
    rcases hl with hl | hl <;>
      simp [DatabaseService.mapPadraoImovel, h1, h2, hl]
  · intro s h1 h2 g1 g2 g3 g4 g5 g6
    simp [DatabaseService.mapPadraoImovel, h1, h2, g1, g2, g3, g4, g5, g6]
  · intro s
    simp [DatabaseService.mapPadraoImovel, DatabaseService.mapPadraoLocalizacao]

/-- Counterexample for C6 as stated: the offer-type mapping does not
pass unrecognized values through — code "4" maps to the default "Venda";
the empty finalidade is likewise replaced by "Residencial". -/
theorem claim_C6_counterexample :
    DatabaseService.mapTipoOferta "4" = "Venda" ∧
    DatabaseService.mapTipoOferta "4" ≠ "4" ∧
    DatabaseService.mapFinalidade "" = "Residencial" ∧
    DatabaseService.mapFinalidade "" ≠ "" :=
  ⟨rfl, by decide, rfl, by decide⟩

/-- Witness for C6 at concrete inputs exercising the hypothesized
branches. -/
theorem claim_C6_witness :
    DatabaseService.mapTipoOferta "4" = "Venda" ∧
    DatabaseService.mapFinalidade "RESIDENCIAL" = "Residencial" ∧
    DatabaseService.mapFinalidade "Misto" = "Misto" ∧
    DatabaseService.mapPadraoImovel "ALTO PADRÃO" = some "Alto Padrão" ∧
    DatabaseService.mapPadraoImovel "Luxo" = some "Luxo" :=
  ⟨claim_C6.2.1 "4" (by decide) (by decide) (by decide),
   claim_C6.2.2.1 "RESIDENCIAL" (by decide),
   claim_C6.2.2.2.2.2.2.1 "Misto" (by decide) (by decide) (by decide)
     (by decide) (by decide),
   claim_C6.2.2.2.2.2.2.2.2.2.1 "ALTO PADRÃO" (by decide) (by decide)
     (Or.inl (by decide)),
   claim_C6.2.2.2.2.2.2.2.2.2.2.2.2.1 "Luxo" (by decide) (by decide)
     (by decide) (by decide) (by decide) (by decide) (by decide) (by decide)⟩

/-- C9: a payload whose listing collection is a single object (not an
array) normalizes exactly as the corresponding one-element-array payload
does; when the object is a valid listing the result is the one-element
sequence of its normalization, and the same object inside a two-element
feed receives the identical per-element normalization. -/
theorem claim_C9 (x : ImoveisService.RawImovel) :
    ImoveisService.extractImoveis (ImoveisService.payloadOf (.one x))
      = ImoveisService.extractImoveis (ImoveisService.payloadOf (.many [x])) ∧
    (ImoveisService.isValidImovel x = true →
      ImoveisService.extractImoveis (ImoveisService.payloadOf (.one x))
        = [ImoveisService.normalizeImovel x]) ∧
    (∀ y : ImoveisService.RawImovel, ImoveisService.isValidImovel x = true →
      ImoveisService.isValidImovel y = true →
      ImoveisService.extractImoveis (ImoveisService.payloadOf (.many [x, y]))
        = [ImoveisService.normalizeImovel x,
           ImoveisService.normalizeImovel y]) := by
  refine ⟨rfl, ?_, ?_⟩
  · intro h
    simp [ImoveisService.extractImoveis, ImoveisService.payloadOf,
      List.filter_cons, h]
  · intro y hx hy
    simp [ImoveisService.extractImoveis, ImoveisService.payloadOf,
      List.filter_cons, hx, hy]

/-- Witness for C9 at a concrete valid raw entry. -/
theorem claim_C9_witness :
    ImoveisService.extractImoveis
        (ImoveisService.payloadOf (.one sampleRawImovel))
      = [ImoveisService.normalizeImovel sampleRawImovel] ∧
    ImoveisService.extractImoveis
        (ImoveisService.payloadOf (.many [sampleRawImovel, sampleRawImovel]))
      = [ImoveisService.normalizeImovel sampleRawImovel,
         ImoveisService.normalizeImovel sampleRawImovel] :=
  ⟨(claim_C9 sampleRawImovel).2.1 (by decide),
   (claim_C9 sampleRawImovel).2.2 sampleRawImovel (by decide) (by decide)⟩

/-- C8: a listing with AreaUtil "0" and PrecoVenda "0.00" maps both
fields to absent in the store mapping (null) and in the statement
formatter (the NULL literal); a listing with QtdDormitorios "0" likewise
maps to null, not zero, in both. -/
theorem claim_C8 (imovel : Imovel) :
    (imovel.AreaUtil = "0" → imovel.PrecoVenda = "0.00" →
      (DatabaseService.mapImovelToDatabaseValues imovel).getD 9 .null
          = DbValue.null ∧
      (SqlGeneratorService.valueFragments imovel).getD 9 "" = "NULL" ∧
      (DatabaseService.mapImovelToDatabaseValues imovel).getD 5 .null
          = DbValue.null ∧
      (SqlGeneratorService.valueFragments imovel).getD 5 "" = "NULL") ∧
    (imovel.QtdDormitorios = "0" →
      (DatabaseService.mapImovelToDatabaseValues imovel).getD 7 .null
          = DbValue.null ∧
      (SqlGeneratorService.valueFragments imovel).getD 7 "" = "NULL") := by
  constructor
  · intro h1 h2
    refine ⟨?_, ?_, ?_, ?_⟩ <;>
      simp [DatabaseService.mapImovelToDatabaseValues,
        SqlGeneratorService.valueFragments, DatabaseService.parseNumeric,
        SqlGeneratorService.parseNumeric, DbValue.ofNum, h1, h2]
  · intro h
    refine ⟨?_, ?_⟩ <;>
      simp [DatabaseService.mapImovelToDatabaseValues,
        SqlGeneratorService.valueFragments, DatabaseService.parseInteger,
        SqlGeneratorService.parseInteger, DbValue.ofInt, h]

/-- Witness for C8 at a concrete zero-valued listing. -/
theorem claim_C8_witness :
    ((DatabaseService.mapImovelToDatabaseValues imovelC8).getD 9 .null
        = DbValue.null ∧
      (SqlGeneratorService.valueFragments imovelC8).getD 9 "" = "NULL" ∧
      (DatabaseService.mapImovelToDatabaseValues imovelC8).getD 5 .null
        = DbValue.null ∧
      (SqlGeneratorService.valueFragments imovelC8).getD 5 "" = "NULL") ∧
    ((DatabaseService.mapImovelToDatabaseValues imovelC8).getD 7 .null
        = DbValue.null ∧
      (SqlGeneratorService.valueFragments imovelC8).getD 7 "" = "NULL") :=
  ⟨(claim_C8 imovelC8).1 rfl rfl, (claim_C8 imovelC8).2 rfl⟩

theorem sql_db_parseNumeric (v : String) :
    SqlGeneratorService.parseNumeric v
      = renderDbValue (DbValue.ofNum (DatabaseService.parseNumeric v)) := by
  simp only [SqlGeneratorService.parseNumeric, DatabaseService.parseNumeric]
  split_ifs with h
  · rfl
  · cases hf : jsParseFloat v <;> simp [DbValue.ofNum, renderDbValue]

theorem sql_db_parseInteger (v : String) :
    SqlGeneratorService.parseInteger v
      = renderDbValue (DbValue.ofInt (DatabaseService.parseInteger v)) := by
  simp only [SqlGeneratorService.parseInteger, DatabaseService.parseInteger]
  split_ifs with h
  · rfl
  · cases hf : jsParseInt v <;> simp [DbValue.ofInt, renderDbValue]

theorem sql_db_parseBoolean (v : String) :
    SqlGeneratorService.parseBoolean v
      = renderDbValue (DbValue.bool (DatabaseService.parseBoolean v)) := by
  by_cases h1 : v = "1" <;> by_cases h2 : v = "true" <;>
    simp [SqlGeneratorService.parseBoolean, DatabaseService.parseBoolean,
      renderDbValue, h1, h2]

theorem strFragment_eq (s : String) :
    SqlGeneratorService.strFragment s
      = renderDbValue (DbValue.ofStrOrNull s) := by
  by_cases h : s = "" <;>
    simp [SqlGeneratorService.strFragment, DbValue.ofStrOrNull, jsTruthy, h,
      renderDbValue, SqlGeneratorService.quoted]

theorem quoted_str (s : String) :
    SqlGeneratorService.quoted s = renderDbValue (DbValue.str s) := rfl

theorem DbValue.ofStrOrNull_of_ne {s : String} (h : s ≠ "") :
    DbValue.ofStrOrNull s = DbValue.str s := by
  simp [DbValue.ofStrOrNull, h]

theorem mapFinalidade_ne_empty (s : String) :
    DatabaseService.mapFinalidade s ≠ "" := by
  simp only [DatabaseService.mapFinalidade, jsOrStr]
  split_ifs <;> simp_all

theorem mapFinalidade_copy (s : String) :
    SqlGeneratorService.mapFinalidade s = DatabaseService.mapFinalidade s := rfl

theorem mapTipoOferta_copy (s : String) :
    SqlGeneratorService.mapTipoOferta s = DatabaseService.mapTipoOferta s := rfl

theorem buildCompleteAddress_copy (imovel : Imovel) :
    SqlGeneratorService.buildCompleteAddress imovel
      = DatabaseService.buildCompleteAddress imovel := rfl

theorem mapPadraoImovel_ne_some_empty (s : String) :
    DatabaseService.mapPadraoImovel s ≠ some "" := by
  simp only [DatabaseService.mapPadraoImovel]
  split_ifs with h1 h2 h3 h4 <;> simp_all

theorem mapPadraoImovel_some_ne (s t : String)
    (h : DatabaseService.mapPadraoImovel s = some t) : t ≠ "" := by
  intro he
  rw [he] at h
  exact mapPadraoImovel_ne_some_empty s h

theorem padraoImovel_fragment (s : String) :
    SqlGeneratorService.optStrFragment (SqlGeneratorService.mapPadraoImovel s)
      = renderDbValue (DbValue.ofOptStr (DatabaseService.mapPadraoImovel s)) := by
  have hcopy : SqlGeneratorService.mapPadraoImovel s
      = DatabaseService.mapPadraoImovel s := rfl
  rw [hcopy]
  cases h : DatabaseService.mapPadraoImovel s with
  | none => rfl
  | some t =>
    have ht := mapPadraoImovel_some_ne s t h
    simp [SqlGeneratorService.optStrFragment, SqlGeneratorService.strFragment,
      jsTruthy, ht, renderDbValue, SqlGeneratorService.quoted, DbValue.ofOptStr]

theorem padraoLocalizacao_fragment (s : String) :
    SqlGeneratorService.optStrFragment
        (SqlGeneratorService.mapPadraoLocalizacao s)
      = renderDbValue
          (DbValue.ofOptStr (DatabaseService.mapPadraoLocalizacao s)) := by
  have hcopy : SqlGeneratorService.mapPadraoLocalizacao s
      = DatabaseService.mapPadraoImovel s := rfl
  have hcopy2 : DatabaseService.mapPadraoLocalizacao s
      = DatabaseService.mapPadraoImovel s := rfl
  rw [hcopy, hcopy2]
  cases h : DatabaseService.mapPadraoImovel s with
  | none => rfl
  | some t =>
    have ht := mapPadraoImovel_some_ne s t h
    simp [SqlGeneratorService.optStrFragment, SqlGeneratorService.strFragment,
      jsTruthy, ht, renderDbValue, SqlGeneratorService.quoted, DbValue.ofOptStr]

/-- C4 (amended): for each of the 27 non-timestamp columns, the literal
rendered by the statement formatter denotes exactly the value the record
store mapping produces for the same listing (strings as quoted escaped
literals, numbers as their numerals, booleans as true/false, absent as
NULL); the two timestamp columns are excluded — there the formatter and
the store mapping genuinely diverge. -/
theorem claim_C4 (imovel : Imovel) (i : Nat) (h : i < 29) (h26 : i ≠ 26)
    (h27 : i ≠ 27) :
    (SqlGeneratorService.valueFragments imovel).getD i ""
      = renderDbValue
          ((DatabaseService.mapImovelToDatabaseValues imovel).getD i
            DbValue.null) := by
  interval_cases i <;>
    simp_all [SqlGeneratorService.valueFragments,
      DatabaseService.mapImovelToDatabaseValues, sql_db_parseNumeric,
      sql_db_parseInteger, sql_db_parseBoolean, strFragment_eq, quoted_str,
      DbValue.ofStrOrNull_of_ne, mapFinalidade_ne_empty, mapFinalidade_copy,
      mapTipoOferta_copy, buildCompleteAddress_copy, padraoImovel_fragment,
      padraoLocalizacao_fragment]

/-- Witness for C4 at the sale-price column of a concrete listing. -/
theorem claim_C4_witness :
    (SqlGeneratorService.valueFragments sampleImovel).getD 5 ""
      = renderDbValue
          ((DatabaseService.mapImovelToDatabaseValues sampleImovel).getD 5
            DbValue.null) :=
  claim_C4 sampleImovel 5 (by decide) (by decide) (by decide)

/-- Counterexample for C4 as stated: on the created-date column the
formatter renders the raw string as a quoted literal while the store
mapping produces null, so the literal does not denote the stored value:
the claimed 29-column lock-step fails on the timestamp columns. -/
theorem claim_C4_counterexample :
    (SqlGeneratorService.valueFragments imC4).getD 26 ""
        = sqQuote "notadate" ∧
    (DatabaseService.mapImovelToDatabaseValues imC4).getD 26 DbValue.null
        = DbValue.null ∧
    (SqlGeneratorService.valueFragments imC4).getD 26 ""
      ≠ renderDbValue
          ((DatabaseService.mapImovelToDatabaseValues imC4).getD 26
            DbValue.null) := by
  refine ⟨by decide, by decide, by decide⟩

theorem innerOk_cons_ne {c : Char} (h : ¬ c = sqChar) (t : List Char) :
    innerOk (c :: t) = innerOk t := by
  cases t with
  | nil => simp [innerOk, h]
  | cons a t => simp [innerOk, h]

theorem innerOk_escape_aux (l : List Char) :
    innerOk
      ((l.flatMap fun c => if c = sqChar then [sqChar, sqChar] else [c])
        ++ [sqChar]) = true := by
  induction l with
  | nil => rfl
  | cons c l ih =>
    by_cases h : c = sqChar
    · subst h
      simp only [List.flatMap_cons, if_pos rfl, List.cons_append,
        List.append_assoc]
      simpa [innerOk] using ih
    · simp only [List.flatMap_cons, if_neg h, List.cons_append,
      List.singleton_append]
      rw [innerOk_cons_ne h]
      exact ih

theorem escape_wellformed (s : String) :
    innerOk ((SqlGeneratorService.escapeSqlString s).data ++ [sqChar])
      = true := by
  by_cases h : s = ""
  · simp [SqlGeneratorService.escapeSqlString, h, innerOk]
  · simp only [SqlGeneratorService.escapeSqlString, if_neg h]
    exact innerOk_escape_aux s.data

theorem strFragment_cases (s : String) :
    SqlGeneratorService.strFragment s = "NULL" ∨
      ∃ t, SqlGeneratorService.strFragment s
        = sqQuote (SqlGeneratorService.escapeSqlString t) := by
  by_cases h : s = ""
  · exact Or.inl (by simp [SqlGeneratorService.strFragment, jsTruthy, h])
  · exact Or.inr ⟨s, by
      simp [SqlGeneratorService.strFragment, jsTruthy, h,
        SqlGeneratorService.quoted]⟩

theorem optStrFragment_cases (o : Option String) :
    SqlGeneratorService.optStrFragment o = "NULL" ∨
      ∃ t, SqlGeneratorService.optStrFragment o
        = sqQuote (SqlGeneratorService.escapeSqlString t) := by
  cases o with
  | none => exact Or.inl rfl
  | some s => exact strFragment_cases s

/-- C7 (amended): every string value embedded through the quoted string
columns of the statement is escaped — each such fragment is the NULL
literal or the quoted image of escapeSqlString, and escapeSqlString
output followed by the closing quote never contains a lone quote; the
timestamp path however applies no escaping: a nonempty value that does
not split into exactly three slash-parts is embedded raw between
quotes. -/
theorem claim_C7 :
    (∀ (imovel : Imovel) (i : Nat),
      i ∈ [0, 1, 2, 3, 4, 10, 13, 14, 20, 21, 22, 24, 28] →
      (SqlGeneratorService.valueFragments imovel).getD i "" = "NULL" ∨
        ∃ t, (SqlGeneratorService.valueFragments imovel).getD i ""
          = sqQuote (SqlGeneratorService.escapeSqlString t)) ∧
    (∀ s : String,
      innerOk ((SqlGeneratorService.escapeSqlString s).data ++ [sqChar])
        = true) ∧
    (∀ s : String, s ≠ "" → (jsSplit s (Char.ofNat 47)).length ≠ 3 →
      SqlGeneratorService.parseTimestamp s = sqQuote s) := by
  refine ⟨?_, escape_wellformed, ?_⟩
  · intro imovel i hi
    fin_cases hi <;>
      simp only [SqlGeneratorService.valueFragments, List.getD_cons_zero,
        List.getD_cons_succ] <;>
      first
        | exact strFragment_cases _
        | exact optStrFragment_cases _
        | exact Or.inr ⟨_, rfl⟩
  · intro s h1 h2
    simp [SqlGeneratorService.parseTimestamp, h1, h2]

/-- Witness for C7: the identity column fragment of a concrete listing,
escape well-formedness at a concrete string, and the raw passthrough at
a concrete non-date value. -/
theorem claim_C7_witness :
    ((SqlGeneratorService.valueFragments sampleImovel).getD 0 "" = "NULL" ∨
      ∃ t, (SqlGeneratorService.valueFragments sampleImovel).getD 0 ""
        = sqQuote (SqlGeneratorService.escapeSqlString t)) ∧
    innerOk ((SqlGeneratorService.escapeSqlString "abc").data ++ [sqChar])
      = true ∧
    SqlGeneratorService.parseTimestamp "notadate" = sqQuote "notadate" :=
  ⟨claim_C7.1 sampleImovel 0 (by decide), claim_C7.2.1 "abc",
   claim_C7.2.2 "notadate" (by decide) (by decide)⟩

/-- Counterexample for C7 as stated: a created-date value containing a
single quote passes through the timestamp path unescaped — the rendered
fragment is the raw value between quotes, differs from the escaped
rendering, and is not a well-formed SQL literal. -/
theorem claim_C7_counterexample :
    (SqlGeneratorService.valueFragments imC7).getD 26 ""
        = sqQuote quoteProbe ∧
    SqlGeneratorService.parseTimestamp quoteProbe
        ≠ sqQuote (SqlGeneratorService.escapeSqlString quoteProbe) ∧
    innerOk (((SqlGeneratorService.valueFragments imC7).getD 26 "").data.tail)
        = false :=
  ⟨by decide, by decide, by decide⟩
